import Mathlib

/-!
Verification of the ticketing system's booking core: the dynamic pricing
engine (`app/services/pricing.py`), the seat-ledger claim and cancellation
operations (`app/crud/booking.py`), and the booking transaction coordinator
(`app/services/booking.py`), shallowly embedded over an explicit database
state.  Money is modelled as exact rationals (Python floats carrying
currency values), instants as integer seconds, and `timedelta.days` as
floor division by 86400.
-/

namespace Ticketing

/-- `round(x, 2)` of Python on a currency value: round to the nearest
hundredth (ties are irrelevant to the claims checked here).  Computed on the
numerator and denominator so that the kernel can evaluate it. -/
def round2 (q : ℚ) : ℚ :=
  (((q * 100).num * 2 + (q * 100).den).fdiv (((q * 100).den : ℤ) * 2) : ℤ) / 100

/-- `round2` agrees with rounding `100 q` to the nearest integer. -/
theorem round2_eq_round (q : ℚ) : round2 q = (round (q * 100) : ℤ) / 100 := by
  unfold round2
  congr 1
  have hden : (0:ℤ) < ((q * 100).den : ℤ) := by exact_mod_cast (q * 100).den_pos
  have h : q * 100 + 1/2 =
      (((q * 100).num * 2 + (q * 100).den : ℤ) : ℚ) / (((q * 100).den * 2 : ℕ) : ℚ) := by
    conv_lhs => rw [← Rat.num_div_den (q * 100)]
    have hd : ((q * 100).den : ℚ) ≠ 0 := by positivity
    field_simp
  rw [round_eq, h, Rat.floor_intCast_div_natCast]
  rw [Int.fdiv_eq_ediv _ (by positivity)]
  congr 1

/-- `DynamicPricingService.PRICING_TIERS`: descending (days-threshold,
multiplier) pairs. -/
def PRICING_TIERS : List (ℤ × ℚ) :=
  [(28, 1), (21, 5/4), (14, 3/2), (7, 7/4), (0, 2)]

/-- The `for min_days, multiplier in cls.PRICING_TIERS` loop: first tier whose
threshold is at most `days`. -/
def multFromTiers (days : ℤ) : List (ℤ × ℚ) → Option ℚ
  | [] => none
  | (min_days, multiplier) :: rest =>
      if min_days ≤ days then some multiplier else multFromTiers days rest

/-- `DynamicPricingService.calculate_pricing_multiplier`: scan the descending
tier table; if no tier matches (negative days) fall back to the last tier's
multiplier (`PRICING_TIERS[-1][1]`). -/
def calculate_pricing_multiplier (days_until_event : ℤ) : ℚ :=
  match multFromTiers days_until_event PRICING_TIERS with
  | some m => m
  | none => (PRICING_TIERS.reverse.headI).2

/-- `(event_start_time - now).days` for instants in seconds:
Python `timedelta.days` floors towards negative infinity. -/
def daysBetween (event_start_time now : ℤ) : ℤ :=
  (event_start_time - now).fdiv 86400

/-- `DynamicPricingService.calculate_current_price`: if the event has already
started or passed, return the base price unchanged; otherwise apply the tier
multiplier and round to cents. -/
def calculate_current_price (base_price : ℚ) (event_start_time now : ℤ) : ℚ :=
  let days_until_event := daysBetween event_start_time now
  if days_until_event < 0 then base_price
  else round2 (base_price * calculate_pricing_multiplier days_until_event)

/-- The fields of the dict returned by
`DynamicPricingService.calculate_total_booking_cost` that the booking
coordinator consumes. -/
structure PricingDetails where
  base_price_per_ticket : ℚ
  current_price_per_ticket : ℚ
  number_of_tickets : ℕ
  total_cost : ℚ
  days_until_event : ℤ
  price_multiplier : ℚ
  deriving Repr, DecidableEq

/-- `DynamicPricingService.calculate_total_booking_cost`. -/
def calculate_total_booking_cost (base_price : ℚ) (event_start_time now : ℤ)
    (num_tickets : ℕ) : PricingDetails :=
  let current_price := calculate_current_price base_price event_start_time now
  let total_cost := current_price * num_tickets
  let days_until_event := daysBetween event_start_time now
  { base_price_per_ticket := base_price
    current_price_per_ticket := current_price
    number_of_tickets := num_tickets
    total_cost := round2 total_cost
    days_until_event := max 0 days_until_event
    price_multiplier := calculate_pricing_multiplier (max 0 days_until_event) }

/-- Closed form of the tier scan as nested conditionals. -/
theorem calculate_pricing_multiplier_eq (d : ℤ) :
    calculate_pricing_multiplier d =
      if 28 ≤ d then 1 else if 21 ≤ d then 5/4 else if 14 ≤ d then 3/2
      else if 7 ≤ d then 7/4 else 2 := by
  by_cases h28 : 28 ≤ d <;> by_cases h21 : 21 ≤ d <;> by_cases h14 : 14 ≤ d <;>
    by_cases h7 : 7 ≤ d <;> by_cases h0 : 0 ≤ d <;>
    simp [calculate_pricing_multiplier, multFromTiers, PRICING_TIERS,
      h28, h21, h14, h7, h0]

/-- The tier multipliers never drop below 1. -/
theorem one_le_multiplier (d : ℤ) : 1 ≤ calculate_pricing_multiplier d := by
  rw [calculate_pricing_multiplier_eq]
  split_ifs <;> norm_num

/-- The tier scan is antitone: fewer days until the event never yields a
smaller multiplier. -/
theorem calculate_pricing_multiplier_antitone {d₁ d₂ : ℤ} (h : d₁ ≤ d₂) :
    calculate_pricing_multiplier d₂ ≤ calculate_pricing_multiplier d₁ := by
  rw [calculate_pricing_multiplier_eq, calculate_pricing_multiplier_eq]
  split_ifs <;> first | omega | norm_num

/-- `round2` is monotone. -/
theorem round2_mono {x y : ℚ} (h : x ≤ y) : round2 x ≤ round2 y := by
  rw [round2_eq_round, round2_eq_round]
  have hr : round (x * 100) ≤ round (y * 100) := by
    rw [round_eq, round_eq]
    exact Int.floor_mono (by linarith)
  have : ((round (x * 100) : ℤ) : ℚ) ≤ ((round (y * 100) : ℤ) : ℚ) := by
    exact_mod_cast hr
  linarith

/-- A value that is a whole number of cents is a fixed point of `round2`. -/
theorem round2_eq_self_of_cents {x : ℚ} (z : ℤ) (hx : x = z / 100) :
    round2 x = x := by
  subst hx
  rw [round2_eq_round]
  rw [div_mul_cancel₀ _ (by norm_num : (100 : ℚ) ≠ 0)]
  rw [round_intCast]

/-- `round2` output is itself a whole number of cents. -/
theorem round2_cents (x : ℚ) : ∃ z : ℤ, round2 x = z / 100 :=
  ⟨round (x * 100), by rw [round2_eq_round]⟩

/-! ## Data model (`app/models/models.py`) -/

/-- `SeatStatus` enum. -/
inductive SeatStatus where
  | AVAILABLE
  | LOCKED
  | BOOKED
  deriving Repr, DecidableEq

/-- `BookingStatus` enum. -/
inductive BookingStatus where
  | CONFIRMED
  | CANCELLED
  deriving Repr, DecidableEq

/-- A row of the `events` table (fields the booking core reads). -/
structure EventRec where
  id : ℕ
  base_price : ℚ
  start_time : ℤ
  deriving Repr, DecidableEq

/-- A row of the `seats` table. -/
structure SeatRec where
  id : ℕ
  event_id : ℕ
  seat_identifier : String
  status : SeatStatus
  deriving Repr, DecidableEq

/-- A row of the `bookings` table. -/
structure BookingRec where
  id : ℕ
  user_id : ℕ
  event_id : ℕ
  status : BookingStatus
  base_price_per_ticket : ℚ
  final_price_per_ticket : ℚ
  price_multiplier : ℚ
  total_amount : ℚ
  deriving Repr, DecidableEq

/-- A row of the `tickets` table. -/
structure TicketRec where
  id : ℕ
  booking_id : ℕ
  seat_id : ℕ
  deriving Repr, DecidableEq

/-- The relational store; `nextId` models the id generator for freshly
inserted bookings and tickets. -/
structure DBState where
  events : List EventRec
  seats : List SeatRec
  bookings : List BookingRec
  tickets : List TicketRec
  nextId : ℕ
  deriving Repr, DecidableEq

/-- A database session: `committed` is the durable state, `pending` the
uncommitted working state of the open transaction. -/
structure Session where
  committed : DBState
  pending : DBState
  deriving Repr, DecidableEq

/-- `db.rollback()`: discard pending writes. -/
def Session.rollback (sess : Session) : Session :=
  { committed := sess.committed, pending := sess.committed }

/-- `db.commit()`: make the pending state durable. -/
def Session.commit (st : DBState) : Session :=
  { committed := st, pending := st }

/-- The error kinds `create_booking` raises (`ValueError` messages, and the
wrapped `RuntimeError` on commit failure). -/
inductive BookingError where
  | eventNotFound
  | priceChanged (current acknowledged : ℚ)
  | seatsNotFound (missing : List String)
  | seatsUnavailable (ids : List String)
  | serverError
  deriving Repr, DecidableEq

/-- Python `sorted` on strings (insertion step). -/
def insertSorted (x : String) : List String → List String
  | [] => [x]
  | y :: ys => if x ≤ y then x :: y :: ys else y :: insertSorted x ys

/-- Python `sorted` on strings. -/
def sortStrings : List String → List String
  | [] => []
  | x :: xs => insertSorted x (sortStrings xs)

/-- `crud.event.get_event_by_id`. -/
def get_event_by_id (st : DBState) (event_id : ℕ) : Option EventRec :=
  st.events.find? (fun e => e.id == event_id)

/-- The `SELECT ... WHERE event_id = :eid AND seat_identifier IN :ids FOR
UPDATE` row set of `create_booking_with_seats`. -/
def lockedSeats (st : DBState) (event_id : ℕ) (seat_identifiers : List String) :
    List SeatRec :=
  st.seats.filter
    (fun s => s.event_id == event_id && seat_identifiers.contains s.seat_identifier)

/-- `crud.booking.create_booking_with_seats`: lock the requested seat rows,
fail if any identifier is missing, fail if any locked seat is not AVAILABLE,
otherwise mark the seats BOOKED and insert the booking and one ticket per
locked seat.  No commit here; the caller commits or rolls back. -/
def create_booking_with_seats (st : DBState) (user_id event_id : ℕ)
    (seat_identifiers : List String)
    (base_price_per_ticket final_price_per_ticket price_multiplier total_amount : ℚ) :
    Except BookingError (DBState × BookingRec) :=
  let locked_seats := lockedSeats st event_id seat_identifiers
  if locked_seats.length ≠ seat_identifiers.length then
    let found := locked_seats.map (fun s => s.seat_identifier)
    Except.error (.seatsNotFound
      (sortStrings ((seat_identifiers.filter (fun i => !(found.contains i))).dedup)))
  else
    let unavailable :=
      (locked_seats.filter (fun s => s.status != SeatStatus.AVAILABLE)).map
        (fun s => s.seat_identifier)
    if unavailable = [] then
      let seats' := st.seats.map (fun s =>
        if s.event_id == event_id && seat_identifiers.contains s.seat_identifier then
          { s with status := SeatStatus.BOOKED }
        else s)
      let booking : BookingRec :=
        { id := st.nextId
          user_id := user_id
          event_id := event_id
          status := BookingStatus.CONFIRMED
          base_price_per_ticket := base_price_per_ticket
          final_price_per_ticket := final_price_per_ticket
          price_multiplier := price_multiplier
          total_amount := total_amount }
      let tickets := ((List.range locked_seats.length).zip locked_seats).map
        (fun p => ({ id := st.nextId + 1 + p.1
                     booking_id := st.nextId
                     seat_id := p.2.id } : TicketRec))
      Except.ok
        ({ st with
            seats := seats'
            bookings := st.bookings ++ [booking]
            tickets := st.tickets ++ tickets
            nextId := st.nextId + 1 + locked_seats.length }, booking)
    else
      Except.error (.seatsUnavailable (sortStrings unavailable))

/-- The tail of `BookingService.create_booking` after the price-staleness
check: compute the pricing breakdown, run the ledger claim, and commit; any
claim error or a commit failure (`commitOk = false`) rolls the session back. -/
def claimAndCommit (sess : Session) (user_id event_id : ℕ)
    (seat_identifiers : List String) (event : EventRec) (current_price : ℚ)
    (now : ℤ) (commitOk : Bool) : Session × Except BookingError BookingRec :=
  let pricing := calculate_total_booking_cost event.base_price event.start_time now
    seat_identifiers.length
  match create_booking_with_seats sess.pending user_id event_id seat_identifiers
      event.base_price current_price pricing.price_multiplier pricing.total_cost with
  | Except.error e => (sess.rollback, Except.error e)
  | Except.ok (st', booking) =>
      if commitOk then (Session.commit st', Except.ok booking)
      else (sess.rollback, Except.error .serverError)

/-- `BookingService.create_booking`: resolve the event, compute the dynamic
price, enforce the acknowledged-price staleness check, then claim seats and
commit; every failure path rolls back.  `now` is the request's wall clock and
`commitOk` whether the final `db.commit()` succeeds. -/
def createBooking (sess : Session) (user_id event_id : ℕ)
    (seat_identifiers : List String) (acknowledged_price_per_ticket : Option ℚ)
    (now : ℤ) (commitOk : Bool) : Session × Except BookingError BookingRec :=
  match get_event_by_id sess.pending event_id with
  | none => (sess.rollback, Except.error .eventNotFound)
  | some event =>
    let current_price := calculate_current_price event.base_price event.start_time now
    match acknowledged_price_per_ticket with
    | some ack =>
        if |current_price - ack| > 1/100 then
          (sess.rollback, Except.error (.priceChanged current_price ack))
        else
          claimAndCommit sess user_id event_id seat_identifiers event current_price
            now commitOk
    | none =>
        claimAndCommit sess user_id event_id seat_identifiers event current_price
          now commitOk

/-- `crud.booking.cancel_booking`: fetch the booking scoped to the owner,
short-circuit when already cancelled, otherwise release each ticketed seat
that is BOOKED back to AVAILABLE, mark the booking CANCELLED and commit. -/
def cancel_booking (sess : Session) (booking_id user_id : ℕ) :
    Session × Option BookingRec :=
  match sess.pending.bookings.find?
      (fun b => b.id == booking_id && b.user_id == user_id) with
  | none => (sess, none)
  | some booking =>
    if booking.status = BookingStatus.CANCELLED then
      (sess, some booking)
    else
      let ticketSeatIds :=
        (sess.pending.tickets.filter (fun t => t.booking_id == booking.id)).map
          (fun t => t.seat_id)
      let seats' := sess.pending.seats.map (fun s =>
        if ticketSeatIds.contains s.id && s.status == SeatStatus.BOOKED then
          { s with status := SeatStatus.AVAILABLE }
        else s)
      let bookings' := sess.pending.bookings.map (fun b =>
        if b.id == booking.id then { b with status := BookingStatus.CANCELLED } else b)
      let st' := { sess.pending with seats := seats', bookings := bookings' }
      (Session.commit st', some { booking with status := BookingStatus.CANCELLED })

/-! ## Spec-side pricing definitions (for refinement claims) -/

/-- From the spec's words: a tier is active for `d` days-until-event when it
is in the table, its threshold does not exceed `d`, and its threshold is
largest among such tiers. -/
def specActiveTier (d : ℤ) (t : ℤ × ℚ) : Prop :=
  t ∈ PRICING_TIERS ∧ t.1 ≤ d ∧ ∀ u ∈ PRICING_TIERS, u.1 ≤ d → u.1 ≤ t.1

/-! ## Pricing claims -/

/-- C4: for every non-negative `days_until_event` the code's multiplier is the
multiplier of the tier with the largest threshold not exceeding it; for such
days the current price is `round(base * multiplier, 2)`; and concretely a
base price of 50 with the event 10 days away prices at 87.5. -/
theorem claim_C4_tier_selection (d : ℤ) (hd : 0 ≤ d) (t : ℤ × ℚ)
    (ht : specActiveTier d t) :
    calculate_pricing_multiplier d = t.2 ∧
    (∀ (base : ℚ) (start now : ℤ), daysBetween start now = d →
      calculate_current_price base start now = round2 (base * t.2)) ∧
    calculate_current_price 50 864000 0 = 87.5 := by
  obtain ⟨hmem, hle, hmax⟩ := ht
  have hm : calculate_pricing_multiplier d = t.2 := by
    simp only [PRICING_TIERS, List.mem_cons, List.not_mem_nil, or_false] at hmem
    rcases hmem with rfl | rfl | rfl | rfl | rfl
    · rw [calculate_pricing_multiplier_eq]
      simp only at hle
      split_ifs <;> first | rfl | omega
    · have h28 : ¬ (28:ℤ) ≤ d := fun hc => by
        have := hmax (28, 1) (by simp [PRICING_TIERS]) hc
        norm_num at this
      simp only at hle
      rw [calculate_pricing_multiplier_eq]
      split_ifs <;> first | rfl | omega
    · have h21 : ¬ (21:ℤ) ≤ d := fun hc => by
        have := hmax (21, 5/4) (by simp [PRICING_TIERS]) hc
        norm_num at this
      simp only at hle
      rw [calculate_pricing_multiplier_eq]
      split_ifs <;> first | rfl | omega
    · have h14 : ¬ (14:ℤ) ≤ d := fun hc => by
        have := hmax (14, 3/2) (by simp [PRICING_TIERS]) hc
        norm_num at this
      simp only at hle
      rw [calculate_pricing_multiplier_eq]
      split_ifs <;> first | rfl | omega
    · have h7 : ¬ (7:ℤ) ≤ d := fun hc => by
        have := hmax (7, 7/4) (by simp [PRICING_TIERS]) hc
        norm_num at this
      simp only at hle
      rw [calculate_pricing_multiplier_eq]
      split_ifs <;> first | rfl | omega
  refine ⟨hm, ?_, ?_⟩
  · intro base start now hdays
    simp only [calculate_current_price, hdays, not_lt.mpr hd, if_false, hm,
      if_neg (not_lt.mpr hd)]
  · have hd10 : daysBetween 864000 0 = 10 := by decide
    have hm10 : calculate_pricing_multiplier 10 = 7/4 := by
      rw [calculate_pricing_multiplier_eq]
      norm_num
    simp only [calculate_current_price, hd10, hm10]
    norm_num [round2_eq_round, round_eq]

/-- Witness for C4 at 10 days before the event: the active tier is (7, 1.75)
and a base price of 50 prices at 87.5. -/
theorem claim_C4_tier_selection_witness :
    specActiveTier 10 (7, 7/4) ∧ calculate_pricing_multiplier 10 = 7/4 ∧
      calculate_current_price 50 864000 0 = 87.5 :=
  ⟨by norm_num [specActiveTier, PRICING_TIERS],
    (claim_C4_tier_selection 10 (by norm_num) (7, 7/4)
      (by norm_num [specActiveTier, PRICING_TIERS])).1,
    (claim_C4_tier_selection 10 (by norm_num) (7, 7/4)
      (by norm_num [specActiveTier, PRICING_TIERS])).2.2⟩

/-- C5 counterexample: one hour after the event start (`days_until_event =
-1 < 0`) the code returns the base price 50 unchanged, not
`round(50 * 2.0, 2) = 100` as the claim states. -/
theorem claim_C5_counterexample :
    daysBetween 0 3600 < 0 ∧
    calculate_current_price 50 0 3600 = 50 ∧
    round2 (50 * 2) = 100 ∧
    calculate_current_price 50 0 3600 ≠ round2 (50 * 2) := by
  have hd : daysBetween 0 3600 = -1 := by decide
  refine ⟨by decide, ?_, ?_, ?_⟩
  · simp only [calculate_current_price, hd]
    norm_num
  · norm_num [round2_eq_round, round_eq]
  · simp only [calculate_current_price, hd]
    norm_num [round2_eq_round, round_eq]

/-- C5 amended: when `days_until_event < 0` the multiplier function alone
falls back to the highest tier 2.0, but `calculate_current_price` bypasses
the multiplier and returns the base price unchanged (no doubling, no
rounding). -/
theorem claim_C5_amended (base : ℚ) (start now : ℤ)
    (h : daysBetween start now < 0) :
    calculate_pricing_multiplier (daysBetween start now) = 2 ∧
    calculate_current_price base start now = base := by
  constructor
  · rw [calculate_pricing_multiplier_eq]
    split_ifs <;> first | rfl | omega
  · simp only [calculate_current_price, if_pos h]

/-- Witness for the amended C5: one hour after a start time of 0. -/
theorem claim_C5_amended_witness :
    daysBetween 0 3600 < 0 ∧
    calculate_pricing_multiplier (daysBetween 0 3600) = 2 ∧
    calculate_current_price 50 0 3600 = 50 :=
  ⟨by decide, (claim_C5_amended 50 0 3600 (by decide)).1,
    (claim_C5_amended 50 0 3600 (by decide)).2⟩

/-- C8 counterexample: `now₁ = 3600` (one hour after a start time of 0) is
closer to the start time than `now₂ = -172800` (two days before), yet the
price at `now₁` is the bare base price 50 while the price at `now₂` is 100:
the price decreases once the event has started. -/
theorem claim_C8_counterexample :
    |(0:ℤ) - 3600| < |(0:ℤ) - (-172800)| ∧
    calculate_current_price 50 0 3600 = 50 ∧
    calculate_current_price 50 0 (-172800) = 100 ∧
    calculate_current_price 50 0 3600 < calculate_current_price 50 0 (-172800) := by
  have h1 : daysBetween 0 3600 = -1 := by decide
  have h2 : daysBetween 0 (-172800) = 2 := by decide
  have hm2 : calculate_pricing_multiplier 2 = 2 := by
    rw [calculate_pricing_multiplier_eq]
    norm_num
  have hp1 : calculate_current_price 50 0 3600 = 50 := by
    simp only [calculate_current_price, h1]
    norm_num
  have hp2 : calculate_current_price 50 0 (-172800) = 100 := by
    simp only [calculate_current_price, h2, hm2]
    norm_num [round2_eq_round, round_eq]
  refine ⟨by decide, hp1, hp2, ?_⟩
  rw [hp1, hp2]
  norm_num

/-- C8 amended: for a non-negative base price and two evaluation instants at
or before the event start, the later (closer) instant never yields a smaller
price. -/
theorem claim_C8_amended (base : ℚ) (hbase : 0 ≤ base) (start now₁ now₂ : ℤ)
    (h21 : now₂ ≤ now₁) (h1 : now₁ ≤ start) :
    calculate_current_price base start now₂ ≤ calculate_current_price base start now₁ := by
  have hd12 : daysBetween start now₁ ≤ daysBetween start now₂ := by
    unfold daysBetween
    rw [Int.fdiv_eq_ediv _ (by norm_num), Int.fdiv_eq_ediv _ (by norm_num)]
    exact Int.ediv_le_ediv (by norm_num) (by omega)
  have hd1 : 0 ≤ daysBetween start now₁ := by
    unfold daysBetween
    rw [Int.fdiv_eq_ediv _ (by norm_num)]
    exact Int.ediv_nonneg (by omega) (by norm_num)
  have hd2 : 0 ≤ daysBetween start now₂ := le_trans hd1 hd12
  have hmul : calculate_pricing_multiplier (daysBetween start now₂) ≤
      calculate_pricing_multiplier (daysBetween start now₁) :=
    calculate_pricing_multiplier_antitone hd12
  simp only [calculate_current_price, if_neg (not_lt.mpr hd1), if_neg (not_lt.mpr hd2)]
  exact round2_mono (mul_le_mul_of_nonneg_left hmul hbase)

/-- Witness for the amended C8: base 50, start 10 days after epoch, compared
at 10 days out (87.5) and 5 days out (100). -/
theorem claim_C8_amended_witness :
    calculate_current_price 50 864000 0 ≤ calculate_current_price 50 864000 432000 :=
  claim_C8_amended 50 (by norm_num) 864000 432000 0 (by norm_num) (by norm_num)

/-! ## Session helpers and ledger-error taxonomy -/

/-- Rolling back a session with no uncommitted writes leaves it unchanged. -/
theorem rollback_of_clean {sess : Session} (h : sess.pending = sess.committed) :
    sess.rollback = sess := by
  cases sess
  simp only [Session.rollback, Session.mk.injEq, true_and]
  exact h.symm

/-- The ledger claim only raises the two seat error kinds. -/
theorem create_booking_with_seats_error_kinds
    {st : DBState} {uid eid : ℕ} {ids : List String} {bp fp pm ta : ℚ}
    {e : BookingError}
    (h : create_booking_with_seats st uid eid ids bp fp pm ta = Except.error e) :
    (∃ m, e = BookingError.seatsNotFound m) ∨
    (∃ l, e = BookingError.seatsUnavailable l) := by
  simp only [create_booking_with_seats] at h
  split at h
  · left
    exact ⟨_, by injection h with h'; exact h'.symm⟩
  · split at h
    · exact absurd h (by simp)
    · right
      exact ⟨_, by injection h with h'; exact h'.symm⟩

/-- Any error outcome of the claim-and-commit tail leaves the session rolled
back. -/
theorem claimAndCommit_error
    {sess : Session} {uid eid : ℕ} {ids : List String} {event : EventRec}
    {cp : ℚ} {now : ℤ} {commitOk : Bool} {s' : Session} {e : BookingError}
    (h : claimAndCommit sess uid eid ids event cp now commitOk
      = (s', Except.error e)) :
    s' = sess.rollback := by
  simp only [claimAndCommit] at h
  split at h
  · simp only [Prod.mk.injEq] at h
    exact h.1.symm
  · split at h
    · simp at h
    · simp only [Prod.mk.injEq] at h
      exact h.1.symm

/-- The claim-and-commit tail never reports a price change. -/
theorem claimAndCommit_no_priceChanged
    {sess : Session} {uid eid : ℕ} {ids : List String} {event : EventRec}
    {cp : ℚ} {now : ℤ} {commitOk : Bool} {s' : Session} {c a : ℚ}
    (h : claimAndCommit sess uid eid ids event cp now commitOk
      = (s', Except.error (BookingError.priceChanged c a))) : False := by
  simp only [claimAndCommit] at h
  split at h
  · rename_i e' heq
    simp only [Prod.mk.injEq, Except.error.injEq] at h
    rcases create_booking_with_seats_error_kinds heq with ⟨m, rfl⟩ | ⟨l, rfl⟩ <;>
      simp at h
  · split at h
    · simp at h
    · simp at h

/-! ## Concrete fixtures used by witnesses -/

/-- A fixture event: id 1, base price 50, starting 10 days after the epoch. -/
def testEvent : EventRec := { id := 1, base_price := 50, start_time := 864000 }

/-- An AVAILABLE seat of the fixture event. -/
def seatA : SeatRec :=
  { id := 10, event_id := 1, seat_identifier := "A01-01", status := SeatStatus.AVAILABLE }

/-- A BOOKED seat of the fixture event. -/
def seatB : SeatRec :=
  { id := 11, event_id := 1, seat_identifier := "A01-02", status := SeatStatus.BOOKED }

/-- The fixture database. -/
def testState : DBState :=
  { events := [testEvent], seats := [seatA, seatB], bookings := [], tickets := [],
    nextId := 100 }

/-- A clean session over the fixture database. -/
def testSession : Session := Session.commit testState

/-! ## C1: failed booking attempts leave the ledger unchanged -/

/-- C1: starting from a session with no uncommitted writes, every failing
`create_booking` call — event not found, price mismatch, missing seats,
unavailable seats, or a commit-time failure — returns the session exactly as
it was: no seat transition survives and the committed ledger is untouched. -/
theorem claim_C1_failure_rolls_back
    (sess : Session) (uid eid : ℕ) (ids : List String) (ack : Option ℚ)
    (now : ℤ) (commitOk : Bool) (s' : Session) (e : BookingError)
    (hclean : sess.pending = sess.committed)
    (h : createBooking sess uid eid ids ack now commitOk = (s', Except.error e)) :
    s' = sess ∧ s'.pending.seats = sess.pending.seats ∧
      s'.committed.seats = sess.committed.seats := by
  have hmain : s' = sess := by
    simp only [createBooking] at h
    split at h
    · simp only [Prod.mk.injEq] at h
      exact h.1.symm.trans (rollback_of_clean hclean)
    · split at h
      · split at h
        · simp only [Prod.mk.injEq] at h
          exact h.1.symm.trans (rollback_of_clean hclean)
        · exact (claimAndCommit_error h).trans (rollback_of_clean hclean)
      · exact (claimAndCommit_error h).trans (rollback_of_clean hclean)
  exact ⟨hmain, by rw [hmain], by rw [hmain]⟩

/-- Witness for C1: booking against a missing event id fails and returns the
session unchanged. -/
theorem claim_C1_failure_rolls_back_witness :
    (createBooking testSession 7 999 ["A01-01"] none 0 true).1 = testSession :=
  (claim_C1_failure_rolls_back testSession 7 999 ["A01-01"] none 0 true
    (createBooking testSession 7 999 ["A01-01"] none 0 true).1
    BookingError.eventNotFound rfl rfl).1

/-! ## C7: acknowledged-price staleness check -/

/-- C7: with an acknowledged price supplied, the call fails with
`priceChanged` exactly when the current dynamic price differs from the
acknowledged price by more than 0.01; on that failure both prices are
reported and the session is returned unchanged — no seat was claimed. -/
theorem claim_C7_price_check
    (sess : Session) (uid eid : ℕ) (ids : List String) (ack : ℚ) (now : ℤ)
    (commitOk : Bool) (event : EventRec)
    (hev : get_event_by_id sess.pending eid = some event)
    (hclean : sess.pending = sess.committed) :
    ((∃ c a, (createBooking sess uid eid ids (some ack) now commitOk).2
        = Except.error (BookingError.priceChanged c a)) ↔
      |calculate_current_price event.base_price event.start_time now - ack| > 1/100) ∧
    (|calculate_current_price event.base_price event.start_time now - ack| > 1/100 →
      createBooking sess uid eid ids (some ack) now commitOk
        = (sess, Except.error (BookingError.priceChanged
            (calculate_current_price event.base_price event.start_time now) ack))) := by
  have hunfold : createBooking sess uid eid ids (some ack) now commitOk =
      if |calculate_current_price event.base_price event.start_time now - ack| > 1/100
      then (sess.rollback, Except.error (BookingError.priceChanged
        (calculate_current_price event.base_price event.start_time now) ack))
      else claimAndCommit sess uid eid ids event
        (calculate_current_price event.base_price event.start_time now) now commitOk := by
    unfold createBooking
    rw [hev]
  by_cases hgt :
      |calculate_current_price event.base_price event.start_time now - ack| > 1/100
  · rw [hunfold, if_pos hgt]
    refine ⟨⟨fun _ => hgt, fun _ => ⟨_, _, rfl⟩⟩, fun _ => ?_⟩
    rw [rollback_of_clean hclean]
  · rw [hunfold, if_neg hgt]
    refine ⟨⟨fun hex => ?_, fun hc => absurd hc hgt⟩, fun hc => absurd hc hgt⟩
    obtain ⟨c, a, hpc⟩ := hex
    have hpair : claimAndCommit sess uid eid ids event
        (calculate_current_price event.base_price event.start_time now) now commitOk
        = ((claimAndCommit sess uid eid ids event
            (calculate_current_price event.base_price event.start_time now) now
            commitOk).1,
          Except.error (BookingError.priceChanged c a)) := by
      rw [← hpc]
    exact (claimAndCommit_no_priceChanged hpair).elim

/-- Witness for C7: acknowledging 50 when the current price is 87.5 fails
with both prices reported and the session unchanged. -/
theorem claim_C7_price_check_witness :
    createBooking testSession 7 1 ["A01-01"] (some 50) 0 true
      = (testSession, Except.error (BookingError.priceChanged 87.5 50)) := by
  have hp : calculate_current_price testEvent.base_price testEvent.start_time 0
      = 87.5 := by
    show calculate_current_price 50 864000 0 = 87.5
    have hd10 : daysBetween 864000 0 = 10 := by decide
    have hm10 : calculate_pricing_multiplier 10 = 7/4 := by
      rw [calculate_pricing_multiplier_eq]
      norm_num
    simp only [calculate_current_price, hd10, hm10]
    norm_num [round2_eq_round, round_eq]
  have h := (claim_C7_price_check testSession 7 1 ["A01-01"] 50 0 true testEvent
    rfl rfl).2
  rw [hp] at h
  refine h ?_
  have habs : |(87.5:ℚ) - 50| = 37.5 := by
    rw [abs_of_nonneg] <;> norm_num
  rw [habs]
  norm_num

/-! ## Membership facts for the sorted error lists -/

/-- Membership in an insertion step. -/
theorem mem_insertSorted {a x : String} {l : List String} :
    a ∈ insertSorted x l ↔ a = x ∨ a ∈ l := by
  induction l with
  | nil => simp [insertSorted]
  | cons y ys ih =>
      by_cases hxy : x ≤ y
      · simp [insertSorted, hxy]
      · simp [insertSorted, hxy, ih]
        tauto

/-- Sorting does not change membership. -/
theorem mem_sortStrings {a : String} {l : List String} :
    a ∈ sortStrings l ↔ a ∈ l := by
  induction l with
  | nil => simp [sortStrings]
  | cons x xs ih => simp [sortStrings, mem_insertSorted, ih]

/-! ## C2: the ledger's two error kinds -/

/-- A seat row with the given identifier exists for the event. -/
def existsSeat (st : DBState) (eid : ℕ) (i : String) : Prop :=
  ∃ s ∈ st.seats, s.event_id = eid ∧ s.seat_identifier = i

instance (st : DBState) (eid : ℕ) (i : String) : Decidable (existsSeat st eid i) := by
  unfold existsSeat
  infer_instance

/-- The locked row set, factored through the event's seat rows. -/
theorem lockedSeats_eq (st : DBState) (eid : ℕ) (ids : List String) :
    lockedSeats st eid ids
      = (st.seats.filter (fun s => s.event_id == eid)).filter
          (fun s => ids.contains s.seat_identifier) := by
  rw [List.filter_filter]
  unfold lockedSeats
  congr 1
  funext s
  rw [Bool.and_comm]

/-- Identifiers of locked rows are exactly the requested identifiers that
exist for the event. -/
theorem mem_lockedIdents {st : DBState} {eid : ℕ} {ids : List String} {x : String} :
    x ∈ (lockedSeats st eid ids).map (fun s => s.seat_identifier) ↔
      existsSeat st eid x ∧ x ∈ ids := by
  unfold lockedSeats existsSeat
  simp only [List.mem_map, List.mem_filter, Bool.and_eq_true, beq_iff_eq,
    List.elem_eq_mem, decide_eq_true_eq]
  constructor
  · rintro ⟨s, ⟨hs, he, hc⟩, rfl⟩
    exact ⟨⟨s, hs, he, rfl⟩, hc⟩
  · rintro ⟨⟨s, hs, he, hx⟩, hmem⟩
    exact ⟨s, ⟨hs, he, hx ▸ hmem⟩, hx⟩

/-- Under the per-event uniqueness constraint, the locked identifiers are
duplicate-free. -/
theorem lockedIdents_nodup {st : DBState} {eid : ℕ} {ids : List String}
    (hwf : ((st.seats.filter (fun s => s.event_id == eid)).map
      (fun s => s.seat_identifier)).Nodup) :
    ((lockedSeats st eid ids).map (fun s => s.seat_identifier)).Nodup := by
  rw [lockedSeats_eq]
  exact hwf.sublist ((List.filter_sublist _).map _)

/-- If some requested identifier is missing, fewer rows lock than were
requested. -/
theorem locked_length_lt {st : DBState} {eid : ℕ} {ids : List String}
    (hwf : ((st.seats.filter (fun s => s.event_id == eid)).map
      (fun s => s.seat_identifier)).Nodup)
    {i : String} (hiids : i ∈ ids) (hmiss : ¬ existsSeat st eid i) :
    (lockedSeats st eid ids).length < ids.length := by
  classical
  set L := (lockedSeats st eid ids).map (fun s => s.seat_identifier) with hL
  have hnotin : i ∉ L := fun hin => hmiss (mem_lockedIdents.mp hin).1
  have hsub : (i :: L) ⊆ ids := by
    intro x hx
    rcases List.mem_cons.mp hx with rfl | hx
    · exact hiids
    · exact (mem_lockedIdents.mp hx).2
  have hnodup : (i :: L).Nodup := List.nodup_cons.mpr ⟨hnotin, lockedIdents_nodup hwf⟩
  have := (hnodup.subperm hsub).length_le
  simpa [hL] using this

/-- If every requested identifier exists, exactly the requested number of
rows lock. -/
theorem locked_length_eq {st : DBState} {eid : ℕ} {ids : List String}
    (hids : ids.Nodup)
    (hwf : ((st.seats.filter (fun s => s.event_id == eid)).map
      (fun s => s.seat_identifier)).Nodup)
    (hall : ∀ i ∈ ids, existsSeat st eid i) :
    (lockedSeats st eid ids).length = ids.length := by
  classical
  set L := (lockedSeats st eid ids).map (fun s => s.seat_identifier) with hL
  have h1 : L ⊆ ids := fun x hx => (mem_lockedIdents.mp hx).2
  have h2 : ids ⊆ L := fun x hx => mem_lockedIdents.mpr ⟨hall x hx, hx⟩
  have hle1 := ((lockedIdents_nodup hwf).subperm h1).length_le
  have hle2 := (hids.subperm h2).length_le
  have : L.length = ids.length := le_antisymm hle1 hle2
  simpa [hL] using this

/-- Branch equation: the missing-identifier failure. -/
theorem create_booking_with_seats_notFound_eq
    {st : DBState} {uid eid : ℕ} {ids : List String} {bp fp pm ta : ℚ}
    (hlen : (lockedSeats st eid ids).length ≠ ids.length) :
    create_booking_with_seats st uid eid ids bp fp pm ta
      = Except.error (BookingError.seatsNotFound (sortStrings
          ((ids.filter (fun i =>
            !(((lockedSeats st eid ids).map (fun s => s.seat_identifier)).contains
              i))).dedup))) := by
  simp only [create_booking_with_seats]
  rw [if_pos hlen]

/-- Branch equation: the unavailable-seat failure. -/
theorem create_booking_with_seats_unavailable_eq
    {st : DBState} {uid eid : ℕ} {ids : List String} {bp fp pm ta : ℚ}
    (hlen : (lockedSeats st eid ids).length = ids.length)
    (hne : ((lockedSeats st eid ids).filter
        (fun s => s.status != SeatStatus.AVAILABLE)).map
          (fun s => s.seat_identifier) ≠ []) :
    create_booking_with_seats st uid eid ids bp fp pm ta
      = Except.error (BookingError.seatsUnavailable (sortStrings
          (((lockedSeats st eid ids).filter
            (fun s => s.status != SeatStatus.AVAILABLE)).map
              (fun s => s.seat_identifier)))) := by
  simp only [create_booking_with_seats]
  rw [if_neg (fun hc => hc hlen), if_neg hne]

/-- C2: a claim over a duplicate-free identifier set fails with
`seatsNotFound` listing exactly the identifiers that do not exist for the
event whenever one is missing; otherwise, if some requested seat is not
AVAILABLE it fails with the distinct `seatsUnavailable` kind listing exactly
the non-AVAILABLE requested identifiers; the not-found check takes
precedence (its branch needs no availability assumption). -/
theorem claim_C2_claim_error_kinds
    (st : DBState) (uid eid : ℕ) (ids : List String) (bp fp pm ta : ℚ)
    (hids : ids.Nodup)
    (hwf : ((st.seats.filter (fun s => s.event_id == eid)).map
      (fun s => s.seat_identifier)).Nodup) :
    ((∃ i ∈ ids, ¬ existsSeat st eid i) →
      ∃ missing, create_booking_with_seats st uid eid ids bp fp pm ta
          = Except.error (BookingError.seatsNotFound missing) ∧
        ∀ x, x ∈ missing ↔ (x ∈ ids ∧ ¬ existsSeat st eid x)) ∧
    ((∀ i ∈ ids, existsSeat st eid i) →
      (∃ s ∈ lockedSeats st eid ids, s.status ≠ SeatStatus.AVAILABLE) →
      ∃ unav, create_booking_with_seats st uid eid ids bp fp pm ta
          = Except.error (BookingError.seatsUnavailable unav) ∧
        ∀ x, x ∈ unav ↔ ∃ s ∈ lockedSeats st eid ids,
          s.seat_identifier = x ∧ s.status ≠ SeatStatus.AVAILABLE) ∧
    (∀ m u, BookingError.seatsNotFound m ≠ BookingError.seatsUnavailable u) := by
  refine ⟨?_, ?_, by simp⟩
  · rintro ⟨i, hiids, hmiss⟩
    have hlen := Nat.ne_of_lt (locked_length_lt hwf hiids hmiss)
    refine ⟨_, create_booking_with_seats_notFound_eq hlen, fun x => ?_⟩
    rw [mem_sortStrings, List.mem_dedup, List.mem_filter]
    simp only [Bool.not_eq_true', List.elem_eq_mem, decide_eq_false_iff_not]
    constructor
    · rintro ⟨hx, hnx⟩
      exact ⟨hx, fun hex => hnx (mem_lockedIdents.mpr ⟨hex, hx⟩)⟩
    · rintro ⟨hx, hnex⟩
      exact ⟨hx, fun hin => hnex (mem_lockedIdents.mp hin).1⟩
  · rintro hall ⟨s, hs, hsa⟩
    have hlen := locked_length_eq hids hwf hall
    have hne : ((lockedSeats st eid ids).filter
        (fun t => t.status != SeatStatus.AVAILABLE)).map
          (fun t => t.seat_identifier) ≠ [] := by
      intro hnil
      have : s.seat_identifier ∈ (((lockedSeats st eid ids).filter
          (fun t => t.status != SeatStatus.AVAILABLE)).map
            (fun t => t.seat_identifier)) := by
        exact List.mem_map_of_mem _ (List.mem_filter.mpr ⟨hs, by simpa using hsa⟩)
      rw [hnil] at this
      exact List.not_mem_nil _ this
    refine ⟨_, create_booking_with_seats_unavailable_eq hlen hne, fun x => ?_⟩
    rw [mem_sortStrings]
    simp only [List.mem_map, List.mem_filter, bne_iff_ne, ne_eq]
    constructor
    · rintro ⟨t, ⟨ht, hta⟩, rfl⟩
      exact ⟨t, ht, rfl, hta⟩
    · rintro ⟨t, ht, rfl, hta⟩
      exact ⟨t, ⟨ht, hta⟩, rfl⟩

/-- Witness for C2: requesting an existing and a non-existing identifier
fails with `seatsNotFound` listing exactly the missing one. -/
theorem claim_C2_claim_error_kinds_witness :
    ∃ missing, create_booking_with_seats testState 7 1 ["A01-01", "ZZZ"] 50 87.5 (7/4) 87.5
        = Except.error (BookingError.seatsNotFound missing) ∧
      ∀ x, x ∈ missing ↔ (x ∈ ["A01-01", "ZZZ"] ∧ ¬ existsSeat testState 1 x) :=
  (claim_C2_claim_error_kinds testState 7 1 ["A01-01", "ZZZ"] 50 87.5 (7/4) 87.5
    (by decide)
    (by decide)).1
    ⟨"ZZZ", by decide, by decide⟩

/-! ## C10: duplicate identifiers in a request -/

/-- With a duplicated identifier (all identifiers existing), the row count is
short of the request count, and the set difference is empty, so the ledger
reports `seatsNotFound` with an empty missing list. -/
theorem create_booking_with_seats_dup
    {st : DBState} {uid eid : ℕ} {ids : List String} {bp fp pm ta : ℚ}
    (hdup : ¬ ids.Nodup)
    (hall : ∀ i ∈ ids, existsSeat st eid i)
    (hwf : ((st.seats.filter (fun s => s.event_id == eid)).map
      (fun s => s.seat_identifier)).Nodup) :
    create_booking_with_seats st uid eid ids bp fp pm ta
      = Except.error (BookingError.seatsNotFound []) := by
  classical
  have hsubL : ∀ x ∈ (lockedSeats st eid ids).map (fun s => s.seat_identifier),
      x ∈ ids.dedup :=
    fun x hx => List.mem_dedup.mpr (mem_lockedIdents.mp hx).2
  have h1 := ((lockedIdents_nodup hwf).subperm hsubL).length_le
  have h2 : ids.dedup.length < ids.length := by
    rcases Nat.lt_or_ge ids.dedup.length ids.length with h | h
    · exact h
    · exfalso
      have hsubl := List.dedup_sublist ids
      have heq := hsubl.eq_of_length (le_antisymm hsubl.length_le h)
      exact hdup (heq ▸ List.nodup_dedup ids)
  have hlen : (lockedSeats st eid ids).length ≠ ids.length := by
    have hmap : ((lockedSeats st eid ids).map
        (fun s => s.seat_identifier)).length = (lockedSeats st eid ids).length :=
      List.length_map _ _
    omega
  rw [create_booking_with_seats_notFound_eq hlen]
  have hfil : ids.filter (fun i =>
      !(((lockedSeats st eid ids).map (fun s => s.seat_identifier)).contains i))
      = [] := by
    rw [List.filter_eq_nil_iff]
    intro a ha
    have hmem : a ∈ (lockedSeats st eid ids).map (fun s => s.seat_identifier) :=
      mem_lockedIdents.mpr ⟨hall a ha, ha⟩
    simp [List.elem_eq_mem, hmem]
  rw [hfil]
  rfl

/-- Reducing the claim-and-commit tail when the ledger claim fails. -/
theorem claimAndCommit_eq_of_error
    {sess : Session} {uid eid : ℕ} {ids : List String} {event : EventRec}
    {cp : ℚ} {now : ℤ} {commitOk : Bool} {e : BookingError}
    (hcr : create_booking_with_seats sess.pending uid eid ids event.base_price cp
      (calculate_total_booking_cost event.base_price event.start_time now
        ids.length).price_multiplier
      (calculate_total_booking_cost event.base_price event.start_time now
        ids.length).total_cost = Except.error e) :
    claimAndCommit sess uid eid ids event cp now commitOk
      = (sess.rollback, Except.error e) := by
  simp only [claimAndCommit]
  rw [hcr]

/-- Reducing the claim-and-commit tail when the ledger claim succeeds and the
commit goes through. -/
theorem claimAndCommit_eq_of_ok
    {sess : Session} {uid eid : ℕ} {ids : List String} {event : EventRec}
    {cp : ℚ} {now : ℤ} {st' : DBState} {b : BookingRec}
    (hcr : create_booking_with_seats sess.pending uid eid ids event.base_price cp
      (calculate_total_booking_cost event.base_price event.start_time now
        ids.length).price_multiplier
      (calculate_total_booking_cost event.base_price event.start_time now
        ids.length).total_cost = Except.ok (st', b)) :
    claimAndCommit sess uid eid ids event cp now true
      = (Session.commit st', Except.ok b) := by
  simp only [claimAndCommit]
  rw [hcr]
  rfl

/-- C10: a request whose identifier list contains a duplicate (every listed
identifier existing for the event) fails with the seats-not-found error kind
carrying an empty missing list, creates no booking, and leaves the session
unchanged. -/
theorem claim_C10_duplicate_identifiers
    (sess : Session) (uid eid : ℕ) (ids : List String) (now : ℤ)
    (commitOk : Bool) (event : EventRec)
    (hev : get_event_by_id sess.pending eid = some event)
    (hclean : sess.pending = sess.committed)
    (hdup : ¬ ids.Nodup)
    (hall : ∀ i ∈ ids, existsSeat sess.pending eid i)
    (hwf : ((sess.pending.seats.filter (fun s => s.event_id == eid)).map
      (fun s => s.seat_identifier)).Nodup) :
    createBooking sess uid eid ids none now commitOk
      = (sess, Except.error (BookingError.seatsNotFound [])) := by
  have h1 : createBooking sess uid eid ids none now commitOk
      = claimAndCommit sess uid eid ids event
          (calculate_current_price event.base_price event.start_time now) now
          commitOk := by
    unfold createBooking
    rw [hev]
  rw [h1, claimAndCommit_eq_of_error (create_booking_with_seats_dup hdup hall hwf),
    rollback_of_clean hclean]

/-- Witness for C10: requesting the available seat twice fails with an empty
missing list and leaves the session unchanged. -/
theorem claim_C10_duplicate_identifiers_witness :
    createBooking testSession 7 1 ["A01-01", "A01-01"] none 0 true
      = (testSession, Except.error (BookingError.seatsNotFound [])) :=
  claim_C10_duplicate_identifiers testSession 7 1 ["A01-01", "A01-01"] 0 true
    testEvent rfl rfl (by decide) (by decide) (by decide)

/-! ## C6: empty seat list is not rejected (code bug) -/

/-- The ledger claim on an empty identifier list succeeds and creates a
booking with no tickets (symbolic in the price arguments). -/
theorem create_booking_with_seats_empty_eval (bp fp pm ta : ℚ) :
    create_booking_with_seats testState 7 1 [] bp fp pm ta
      = Except.ok
          ({ events := [testEvent], seats := [seatA, seatB],
             bookings := [⟨100, 7, 1, BookingStatus.CONFIRMED, bp, fp, pm, ta⟩],
             tickets := [], nextId := 101 },
           ⟨100, 7, 1, BookingStatus.CONFIRMED, bp, fp, pm, ta⟩) := rfl

/-- The zero-ticket booking the code creates for an empty request. -/
def emptyBooking : BookingRec :=
  { id := 100, user_id := 7, event_id := 1, status := BookingStatus.CONFIRMED,
    base_price_per_ticket := 50, final_price_per_ticket := 87.5,
    price_multiplier := 7/4, total_amount := 0 }

/-- C6 fails on the code: `create_booking` with an empty `seat_identifiers`
list is not rejected — it commits a CONFIRMED booking with zero tickets and
total 0 against the fixture event. -/
theorem claim_C6_empty_accepted :
    createBooking testSession 7 1 [] none 0 true
      = (Session.commit
          { events := [testEvent], seats := [seatA, seatB],
            bookings := [emptyBooking], tickets := [], nextId := 101 },
         Except.ok emptyBooking) ∧
    emptyBooking.status = BookingStatus.CONFIRMED ∧
    emptyBooking.total_amount = 0 := by
  have hd10 : daysBetween 864000 0 = 10 := by decide
  have hm10 : calculate_pricing_multiplier 10 = 7/4 := by
    rw [calculate_pricing_multiplier_eq]
    norm_num
  have hcp : calculate_current_price testEvent.base_price testEvent.start_time 0
      = 87.5 := by
    show calculate_current_price 50 864000 0 = 87.5
    simp only [calculate_current_price, hd10, hm10]
    norm_num [round2_eq_round, round_eq]
  have hpm : (calculate_total_booking_cost testEvent.base_price testEvent.start_time 0
      ([] : List String).length).price_multiplier = 7/4 := by
    show (calculate_total_booking_cost 50 864000 0 0).price_multiplier = 7/4
    simp only [calculate_total_booking_cost, hd10]
    norm_num [hm10]
  have hta : (calculate_total_booking_cost testEvent.base_price testEvent.start_time 0
      ([] : List String).length).total_cost = 0 := by
    show (calculate_total_booking_cost 50 864000 0 0).total_cost = 0
    simp only [calculate_total_booking_cost]
    norm_num [round2_eq_round]
  have h1 : createBooking testSession 7 1 [] none 0 true
      = claimAndCommit testSession 7 1 [] testEvent
          (calculate_current_price testEvent.base_price testEvent.start_time 0) 0
          true := by
    unfold createBooking
    rfl
  have h2 := @claimAndCommit_eq_of_ok testSession 7 1 [] testEvent
    (calculate_current_price testEvent.base_price testEvent.start_time 0) 0 _ _
    (create_booking_with_seats_empty_eval testEvent.base_price
      (calculate_current_price testEvent.base_price testEvent.start_time 0)
      ((calculate_total_booking_cost testEvent.base_price testEvent.start_time 0
        ([] : List String).length).price_multiplier)
      ((calculate_total_booking_cost testEvent.base_price testEvent.start_time 0
        ([] : List String).length).total_cost))
  rw [h1, h2, hcp, hpm, hta]
  refine ⟨?_, rfl, rfl⟩
  have hbase : testEvent.base_price = 50 := rfl
  rw [hbase]
  rfl

/-! ## C9: the pricing snapshot -/

/-- The current price of an event priced in whole cents is again whole
cents. -/
theorem calculate_current_price_cents {base : ℚ} (hb : ∃ z : ℤ, base = z / 100)
    (start now : ℤ) :
    ∃ z : ℤ, calculate_current_price base start now = z / 100 := by
  unfold calculate_current_price
  by_cases h : daysBetween start now < 0
  · simpa [h] using hb
  · simpa [h] using round2_cents _

/-- Rounding a whole-cents amount times a ticket count is the identity. -/
theorem round2_mul_natCast {x : ℚ} (hx : ∃ z : ℤ, x = z / 100) (n : ℕ) :
    round2 (x * n) = x * n := by
  obtain ⟨z, rfl⟩ := hx
  refine round2_eq_self_of_cents (z * n) ?_
  push_cast
  ring

/-- Inversion of a successful ledger claim. -/
theorem create_booking_with_seats_ok_inv
    {st : DBState} {uid eid : ℕ} {ids : List String} {bp fp pm ta : ℚ}
    {st' : DBState} {b : BookingRec}
    (h : create_booking_with_seats st uid eid ids bp fp pm ta
      = Except.ok (st', b)) :
    (lockedSeats st eid ids).length = ids.length ∧
    b = { id := st.nextId, user_id := uid, event_id := eid,
          status := BookingStatus.CONFIRMED, base_price_per_ticket := bp,
          final_price_per_ticket := fp, price_multiplier := pm,
          total_amount := ta } ∧
    st'.bookings = st.bookings ++ [b] ∧
    st'.tickets = st.tickets ++
      ((List.range (lockedSeats st eid ids).length).zip
        (lockedSeats st eid ids)).map
        (fun p => ({ id := st.nextId + 1 + p.1,
                     booking_id := st.nextId,
                     seat_id := p.2.id } : TicketRec)) := by
  simp only [create_booking_with_seats] at h
  split at h
  · simp at h
  · rename_i hlen
    split at h
    · simp only [Except.ok.injEq, Prod.mk.injEq] at h
      obtain ⟨rfl, rfl⟩ := h
      exact ⟨not_ne_iff.mp hlen, rfl, rfl, rfl⟩
    · simp at h

/-- Inversion of a successful claim-and-commit tail. -/
theorem claimAndCommit_ok_inv
    {sess : Session} {uid eid : ℕ} {ids : List String} {event : EventRec}
    {cp : ℚ} {now : ℤ} {commitOk : Bool} {s' : Session} {b : BookingRec}
    (h : claimAndCommit sess uid eid ids event cp now commitOk
      = (s', Except.ok b)) :
    ∃ st', s' = Session.commit st' ∧
      create_booking_with_seats sess.pending uid eid ids event.base_price cp
        (calculate_total_booking_cost event.base_price event.start_time now
          ids.length).price_multiplier
        (calculate_total_booking_cost event.base_price event.start_time now
          ids.length).total_cost = Except.ok (st', b) := by
  simp only [claimAndCommit] at h
  split at h
  · simp at h
  · rename_i st'' b'' heq
    split at h
    · simp only [Prod.mk.injEq, Except.ok.injEq] at h
      obtain ⟨rfl, rfl⟩ := h
      exact ⟨st'', rfl, heq⟩
    · simp at h

/-- Inversion of a successful `create_booking` call. -/
theorem createBooking_ok_inv
    {sess : Session} {uid eid : ℕ} {ids : List String} {ack : Option ℚ}
    {now : ℤ} {commitOk : Bool} {s' : Session} {b : BookingRec}
    (h : createBooking sess uid eid ids ack now commitOk = (s', Except.ok b)) :
    ∃ event st', get_event_by_id sess.pending eid = some event ∧
      s' = Session.commit st' ∧
      create_booking_with_seats sess.pending uid eid ids event.base_price
        (calculate_current_price event.base_price event.start_time now)
        (calculate_total_booking_cost event.base_price event.start_time now
          ids.length).price_multiplier
        (calculate_total_booking_cost event.base_price event.start_time now
          ids.length).total_cost = Except.ok (st', b) := by
  simp only [createBooking] at h
  split at h
  · simp at h
  · rename_i event hev
    split at h
    · split at h
      · simp at h
      · obtain ⟨st', h1, h2⟩ := claimAndCommit_ok_inv h
        exact ⟨event, st', hev, h1, h2⟩
    · obtain ⟨st', h1, h2⟩ := claimAndCommit_ok_inv h
      exact ⟨event, st', hev, h1, h2⟩

/-- Cancellation either leaves the booking rows unchanged or flips exactly
the targeted booking's status, preserving every other field. -/
theorem cancel_booking_pending_bookings (sess : Session) (bid uid : ℕ) :
    (cancel_booking sess bid uid).1.pending.bookings = sess.pending.bookings ∨
    ∃ tid, (cancel_booking sess bid uid).1.pending.bookings
      = sess.pending.bookings.map (fun x =>
          if x.id == tid then { x with status := BookingStatus.CANCELLED }
          else x) := by
  unfold cancel_booking
  split
  · exact Or.inl rfl
  · rename_i booking hfind
    split
    · exact Or.inl rfl
    · exact Or.inr ⟨booking.id, rfl⟩

/-- C9: a successful booking stores `total_amount` equal to
`final_price_per_ticket` times the number of tickets created, and cancelling
afterwards leaves every pricing-snapshot field of the booking row
unchanged. -/
theorem claim_C9_pricing_snapshot
    (sess : Session) (uid eid : ℕ) (ids : List String) (ack : Option ℚ)
    (now : ℤ) (commitOk : Bool) (s' : Session) (b : BookingRec)
    (event : EventRec)
    (hev : get_event_by_id sess.pending eid = some event)
    (hcents : ∃ z : ℤ, event.base_price = z / 100)
    (hfreshT : ∀ t ∈ sess.pending.tickets, t.booking_id < sess.pending.nextId)
    (hfreshB : ∀ x ∈ sess.pending.bookings, x.id < sess.pending.nextId)
    (h : createBooking sess uid eid ids ack now commitOk = (s', Except.ok b)) :
    b.total_amount = b.final_price_per_ticket * (ids.length : ℚ) ∧
    (s'.pending.tickets.filter (fun t => t.booking_id == b.id)).length
      = ids.length ∧
    (∀ b' ∈ (cancel_booking s' b.id uid).1.pending.bookings, b'.id = b.id →
      b'.total_amount = b.total_amount ∧
      b'.final_price_per_ticket = b.final_price_per_ticket ∧
      b'.base_price_per_ticket = b.base_price_per_ticket ∧
      b'.price_multiplier = b.price_multiplier) := by
  obtain ⟨event', st', hev', hs', hcr⟩ := createBooking_ok_inv h
  rw [hev] at hev'
  obtain rfl : event = event' := Option.some.inj hev'
  obtain ⟨hlen, hb, hbk, htk⟩ := create_booking_with_seats_ok_inv hcr
  have hbid : b.id = sess.pending.nextId := by rw [hb]
  have hbta : b.total_amount
      = (calculate_total_booking_cost event.base_price event.start_time now
          ids.length).total_cost := by rw [hb]
  have hbfp : b.final_price_per_ticket
      = calculate_current_price event.base_price event.start_time now := by
    rw [hb]
  have hsnap : b.total_amount = b.final_price_per_ticket * (ids.length : ℚ) := by
    rw [hbta, hbfp]
    show round2 (calculate_current_price event.base_price event.start_time now
      * (ids.length : ℚ)) = _
    exact round2_mul_natCast (calculate_current_price_cents hcents event.start_time now) ids.length
  refine ⟨hsnap, ?_, ?_⟩
  · subst hs'
    show (st'.tickets.filter (fun t => t.booking_id == b.id)).length = ids.length
    rw [htk, List.filter_append]
    have hold : sess.pending.tickets.filter (fun t => t.booking_id == b.id) = [] := by
      rw [List.filter_eq_nil_iff]
      intro t ht
      have := hfreshT t ht
      simp only [beq_iff_eq, hbid]
      omega
    have hnew : (((List.range (lockedSeats sess.pending eid ids).length).zip
        (lockedSeats sess.pending eid ids)).map
        (fun p => ({ id := sess.pending.nextId + 1 + p.1,
                     booking_id := sess.pending.nextId,
                     seat_id := p.2.id } : TicketRec))).filter
          (fun t => t.booking_id == b.id)
        = ((List.range (lockedSeats sess.pending eid ids).length).zip
          (lockedSeats sess.pending eid ids)).map
          (fun p => ({ id := sess.pending.nextId + 1 + p.1,
                       booking_id := sess.pending.nextId,
                       seat_id := p.2.id } : TicketRec)) := by
      rw [List.filter_eq_self]
      intro t ht
      obtain ⟨p, hp, rfl⟩ := List.mem_map.mp ht
      simp [hbid]
    rw [hold, hnew]
    simp [List.length_zip, hlen]
  · intro b' hb' hid
    have hfields : ∀ (x : BookingRec) (tid : ℕ),
        ((if x.id == tid then { x with status := BookingStatus.CANCELLED }
          else x).total_amount = x.total_amount) ∧
        ((if x.id == tid then { x with status := BookingStatus.CANCELLED }
          else x).final_price_per_ticket = x.final_price_per_ticket) ∧
        ((if x.id == tid then { x with status := BookingStatus.CANCELLED }
          else x).base_price_per_ticket = x.base_price_per_ticket) ∧
        ((if x.id == tid then { x with status := BookingStatus.CANCELLED }
          else x).price_multiplier = x.price_multiplier) ∧
        ((if x.id == tid then { x with status := BookingStatus.CANCELLED }
          else x).id = x.id) := by
      intro x tid
      split <;> exact ⟨rfl, rfl, rfl, rfl, rfl⟩
    rcases cancel_booking_pending_bookings s' b.id uid with hshape | ⟨tid, hshape⟩
    · rw [hshape] at hb'
      have hsp : s'.pending.bookings = sess.pending.bookings ++ [b] := by
        rw [hs']
        exact hbk
      rw [hsp] at hb'
      rcases List.mem_append.mp hb' with hX | hX
      · have := hfreshB b' hX
        rw [hid, hbid] at this
        omega
      · obtain rfl : b' = b := by simpa using hX
        exact ⟨rfl, rfl, rfl, rfl⟩
    · rw [hshape] at hb'
      have hsp : s'.pending.bookings = sess.pending.bookings ++ [b] := by
        rw [hs']
        exact hbk
      rw [hsp] at hb'
      obtain ⟨x, hx, rfl⟩ := List.mem_map.mp hb'
      have hxid : x.id = b.id := by
        have := (hfields x tid).2.2.2.2
        rw [← hid, this]
      rcases List.mem_append.mp hx with hX | hX
      · have := hfreshB x hX
        rw [hxid, hbid] at this
        omega
      · obtain rfl : x = b := by simpa using hX
        obtain ⟨e1, e2, e3, e4, _⟩ := hfields x tid
        exact ⟨e1, e2, e3, e4⟩

/-- The ledger claim of the fixture's available seat succeeds, books it and
creates one ticket (symbolic in the price arguments). -/
theorem create_booking_with_seats_single_eval (bp fp pm ta : ℚ) :
    create_booking_with_seats testState 7 1 ["A01-01"] bp fp pm ta
      = Except.ok
          ({ events := [testEvent],
             seats := [{ id := 10, event_id := 1, seat_identifier := "A01-01",
                         status := SeatStatus.BOOKED }, seatB],
             bookings := [⟨100, 7, 1, BookingStatus.CONFIRMED, bp, fp, pm, ta⟩],
             tickets := [⟨101, 100, 10⟩], nextId := 102 },
           ⟨100, 7, 1, BookingStatus.CONFIRMED, bp, fp, pm, ta⟩) := rfl

/-- Witness for C9: booking the fixture's available seat stores a total equal
to the per-ticket price times one ticket. -/
theorem claim_C9_pricing_snapshot_witness :
    ∃ s' b, createBooking testSession 7 1 ["A01-01"] none 0 true
        = (s', Except.ok b) ∧
      b.total_amount = b.final_price_per_ticket * ((1 : ℕ) : ℚ) := by
  have h1 : createBooking testSession 7 1 ["A01-01"] none 0 true
      = claimAndCommit testSession 7 1 ["A01-01"] testEvent
          (calculate_current_price testEvent.base_price testEvent.start_time 0) 0
          true := by
    unfold createBooking
    rfl
  have h2 := @claimAndCommit_eq_of_ok testSession 7 1 ["A01-01"] testEvent
    (calculate_current_price testEvent.base_price testEvent.start_time 0) 0 _ _
    (create_booking_with_seats_single_eval testEvent.base_price
      (calculate_current_price testEvent.base_price testEvent.start_time 0)
      ((calculate_total_booking_cost testEvent.base_price testEvent.start_time 0
        (["A01-01"] : List String).length).price_multiplier)
      ((calculate_total_booking_cost testEvent.base_price testEvent.start_time 0
        (["A01-01"] : List String).length).total_cost))
  have h := (claim_C9_pricing_snapshot testSession 7 1 ["A01-01"] none 0 true _ _
    testEvent rfl ⟨5000, by show (50:ℚ) = 5000 / 100; norm_num⟩
    (by decide) (by decide) (h1.trans h2)).1
  exact ⟨_, _, h1.trans h2, h⟩

/-! ## C3: idempotent cancellation -/

/-- C3: cancelling a CONFIRMED booking owned by the caller returns it
CANCELLED and releases each of its BOOKED ticketed seats back to AVAILABLE;
cancelling again on the resulting session returns the same cancelled booking
and leaves the session untouched, so no seat is ever released twice. -/
theorem claim_C3_idempotent_cancellation
    (sess : Session) (bid uid : ℕ) (b : BookingRec)
    (hfind : sess.pending.bookings.find?
        (fun x => x.id == bid && x.user_id == uid) = some b)
    (hconf : b.status = BookingStatus.CONFIRMED) :
    ∃ sess₁,
      cancel_booking sess bid uid
        = (sess₁, some { b with status := BookingStatus.CANCELLED }) ∧
      (∀ s ∈ sess.pending.seats,
        s.id ∈ (sess.pending.tickets.filter
            (fun t => t.booking_id == b.id)).map (fun t => t.seat_id) →
        s.status = SeatStatus.BOOKED →
        { s with status := SeatStatus.AVAILABLE } ∈ sess₁.pending.seats) ∧
      cancel_booking sess₁ bid uid
        = (sess₁, some { b with status := BookingStatus.CANCELLED }) := by
  classical
  have hb_ne : ¬ b.status = BookingStatus.CANCELLED := by
    rw [hconf]
    intro hx
    exact BookingStatus.noConfusion hx
  refine ⟨Session.commit
    { sess.pending with
      seats := sess.pending.seats.map (fun s =>
        if ((sess.pending.tickets.filter (fun t => t.booking_id == b.id)).map
              (fun t => t.seat_id)).contains s.id
            && s.status == SeatStatus.BOOKED then
          { s with status := SeatStatus.AVAILABLE } else s)
      bookings := sess.pending.bookings.map (fun x =>
        if x.id == b.id then { x with status := BookingStatus.CANCELLED }
        else x) }, ?_, ?_, ?_⟩
  · unfold cancel_booking
    split
    · rename_i hnone
      exact absurd (hnone.symm.trans hfind) (by simp)
    · rename_i booking hsome
      obtain rfl : booking = b := Option.some.inj (hsome.symm.trans hfind)
      rw [if_neg hb_ne]
  · intro s hs hsid hstat
    have hcond : (((sess.pending.tickets.filter
        (fun t => t.booking_id == b.id)).map
          (fun t => t.seat_id)).contains s.id
        && s.status == SeatStatus.BOOKED) = true := by
      simp only [Bool.and_eq_true, List.elem_eq_mem, decide_eq_true_eq, beq_iff_eq]
      exact ⟨hsid, hstat⟩
    have hmm := List.mem_map_of_mem (fun s : SeatRec =>
        if ((sess.pending.tickets.filter (fun t => t.booking_id == b.id)).map
              (fun t => t.seat_id)).contains s.id
            && s.status == SeatStatus.BOOKED then
          { s with status := SeatStatus.AVAILABLE } else s) hs
    simp only [hcond, if_true] at hmm
    exact hmm
  · have hfind₁ : (sess.pending.bookings.map (fun x =>
        if x.id == b.id then { x with status := BookingStatus.CANCELLED }
        else x)).find? (fun x => x.id == bid && x.user_id == uid)
        = some { b with status := BookingStatus.CANCELLED } := by
      rw [List.find?_map]
      have hcomp : ((fun x : BookingRec => x.id == bid && x.user_id == uid) ∘
          (fun x => if x.id == b.id then
            { x with status := BookingStatus.CANCELLED } else x))
          = (fun x : BookingRec => x.id == bid && x.user_id == uid) := by
        funext x
        simp only [Function.comp]
        split <;> rfl
      rw [hcomp, hfind]
      show some (if b.id == b.id then
        { b with status := BookingStatus.CANCELLED } else b) = _
      simp
    unfold cancel_booking
    split
    · rename_i hnone
      exact absurd (hnone.symm.trans hfind₁) (by simp)
    · rename_i booking hsome
      obtain rfl : booking = { b with status := BookingStatus.CANCELLED } :=
        Option.some.inj (hsome.symm.trans hfind₁)
      rw [if_pos rfl]

/-! ### Cancellation fixtures -/

/-- A BOOKED seat held by the fixture booking. -/
def bookedSeatC : SeatRec :=
  { id := 40, event_id := 1, seat_identifier := "B01-01",
    status := SeatStatus.BOOKED }

/-- A CONFIRMED booking owned by user 7. -/
def confirmedBooking : BookingRec :=
  { id := 20, user_id := 7, event_id := 1, status := BookingStatus.CONFIRMED,
    base_price_per_ticket := 50, final_price_per_ticket := 100,
    price_multiplier := 2, total_amount := 100 }

/-- The ticket linking the fixture booking to its seat. -/
def ticketC : TicketRec := { id := 30, booking_id := 20, seat_id := 40 }

/-- Database with one confirmed single-ticket booking. -/
def cancelState : DBState :=
  { events := [testEvent], seats := [bookedSeatC], bookings := [confirmedBooking],
    tickets := [ticketC], nextId := 100 }

/-- A clean session over the cancellation fixture. -/
def cancelSession : Session := Session.commit cancelState

/-- Witness for C3 on the cancellation fixture. -/
theorem claim_C3_idempotent_cancellation_witness :
    ∃ sess₁,
      cancel_booking cancelSession 20 7
        = (sess₁, some { confirmedBooking with status := BookingStatus.CANCELLED }) ∧
      (∀ s ∈ cancelSession.pending.seats,
        s.id ∈ (cancelSession.pending.tickets.filter
            (fun t => t.booking_id == confirmedBooking.id)).map
              (fun t => t.seat_id) →
        s.status = SeatStatus.BOOKED →
        { s with status := SeatStatus.AVAILABLE } ∈ sess₁.pending.seats) ∧
      cancel_booking sess₁ 20 7
        = (sess₁, some { confirmedBooking with status := BookingStatus.CANCELLED }) :=
  claim_C3_idempotent_cancellation cancelSession 20 7 confirmedBooking
    (by decide) rfl

end Ticketing
